import Mathlib

/-!
Verification of the netpwn core (src/src/main.rs) against its natural-language
specification.  The Rust program is shallowly embedded: the two syscall-routine
template constants are reproduced byte-for-byte; `get_template`, `run` and
`main` are modelled as pure functions over an explicit environment (`World`),
producing a trace of externally visible events; the inline-assembly payloads
are parsed out of the template strings and executed by a small register
machine whose syscall convention is the Linux ABI for each architecture.
-/

set_option maxRecDepth 8192

/-- Value of the Rust constant `AMD64_TEMPLATE` (main.rs lines 13-31), after
Rust escape processing: embedded quotes are literal quote characters, the
two-character sequences backslash-n inside the assembly strings are kept as
two characters, and line breaks are real newlines.  Braces appear as their
hexadecimal escapes. -/
def AMD64_TEMPLATE : String :=
  "\nvoid _gdb_expr(void) \x7b\n\t__asm__ (\n\t\t\"movq $33, %%rax\\n\"\n\t\t\"movl %0, %%edi\\n\"\n\t\t\"movq $0, %%rsi\\n\"\n\t\t\"syscall\\n\"\n\t\t\"movq $33, %%rax\\n\"\n\t\t\"movl %0, %%edi\\n\"\n\t\t\"movq $1, %%rsi\\n\"\n\t\t\"syscall\\n\"\n\t\t\"movq $33, %%rax\\n\"\n\t\t\"movl %0, %%edi\\n\"\n\t\t\"movq $2, %%rsi\\n\"\n\t\t\"syscall\\n\"\n\t\t:: \"b\"(fd) : \"%rax\", \"%rdi\", \"%rsi\", \"%rcx\"\n\t);\n\x7d\n"

/-- Value of the Rust constant `X86_TEMPLATE` (main.rs lines 33-51), with the
same escape conventions as `AMD64_TEMPLATE`. -/
def X86_TEMPLATE : String :=
  "\nvoid _gdb_expr(void) \x7b\n\t__asm__ (\n\t\t\"movl $63, %%eax\\n\"\n\t\t\"movl %0, %%ebx\\n\"\n\t\t\"movl $0, %%ecx\\n\"\n\t\t\"syscall\\n\"\n\t\t\"movl $63, %%eax\\n\"\n\t\t\"movl %0, %%ebx\\n\"\n\t\t\"movl $1, %%ecx\\n\"\n\t\t\"syscall\\n\"\n\t\t\"movl $63, %%eax\\n\"\n\t\t\"movl %0, %%ebx\\n\"\n\t\t\"movl $2, %%ecx\\n\"\n\t\t\"syscall\\n\"\n\t\t:: \"b\"(fd) : \"%eax\", \"%ebx\", \"%ecx\"\n\t);\n\x7d\n"

/-- Instruction-set class of the target, as the spec's ExecutableClass. -/
inductive ExecutableClass
  | ThirtyTwoBit
  | SixtyFourBit
deriving DecidableEq, Repr

/-- Routine text the source returns for each class: `get_template` returns
`X86_TEMPLATE` for class byte 1 and `AMD64_TEMPLATE` for class byte 2. -/
def templateFor : ExecutableClass → String
  | ExecutableClass.ThirtyTwoBit => X86_TEMPLATE
  | ExecutableClass.SixtyFourBit => AMD64_TEMPLATE

/-- Contents of the 5-byte buffer after `file.read(&mut buf)` in
`get_template` (main.rs lines 55-57): the buffer starts zeroed, the read
fills its first `min 5 (length of the file)` bytes. -/
def firstFiveBytes (bytes : List Nat) : List Nat :=
  bytes.take 5 ++ List.replicate (5 - bytes.length) 0

/-- Classification performed by `get_template` (main.rs lines 59-67): magic
check on the first four bytes, then class byte 1 or 2; anything else panics
(modelled as `none`). -/
def detect (bytes : List Nat) : Option ExecutableClass :=
  if (firstFiveBytes bytes).take 4 = [0x7f, 0x45, 0x4c, 0x46] then
    if (firstFiveBytes bytes).getD 4 0 = 1 then some ExecutableClass.ThirtyTwoBit
    else if (firstFiveBytes bytes).getD 4 0 = 2 then some ExecutableClass.SixtyFourBit
    else none
  else none

/-- Model of `get_template` (main.rs lines 53-70), mapping the bytes of the
file at the given path to the returned template, `none` standing for the
panic with message Unknown executable file type. -/
def get_template (bytes : List Nat) : Option String :=
  if (firstFiveBytes bytes).take 4 = [0x7f, 0x45, 0x4c, 0x46] then
    if (firstFiveBytes bytes).getD 4 0 = 1 then some X86_TEMPLATE
    else if (firstFiveBytes bytes).getD 4 0 = 2 then some AMD64_TEMPLATE
    else none
  else none

lemma firstFiveBytes_length (bytes : List Nat) : (firstFiveBytes bytes).length = 5 := by
  simp only [firstFiveBytes, List.length_append, List.length_take, List.length_replicate]
  omega

lemma exists_five (l : List Nat) (h : l.length = 5) :
    ∃ a b c d e, l = [a, b, c, d, e] := by
  match l with
  | [a, b, c, d, e] => exact ⟨a, b, c, d, e, rfl⟩
  | [] | [_] | [_, _] | [_, _, _] | [_, _, _, _] => simp at h
  | _ :: _ :: _ :: _ :: _ :: _ :: _ => simp at h

/-- Splitting a character list at a separator character, with the semantics of
the Rust iterator str::split used at main.rs lines 176 and 178: the empty
input yields one empty piece, and a separator at either end, or two adjacent
separators, yield an empty piece. -/
def splitOnChar (sep : Char) : List Char → List (List Char)
  | [] => [[]]
  | c :: cs =>
    if c = sep then [] :: splitOnChar sep cs
    else
      match splitOnChar sep cs with
      | [] => [[c]]
      | h :: t => (c :: h) :: t

/-- Whitespace trim at both ends of a character list, the semantics of
str::trim in the closure at main.rs line 178 (the inputs of interest here are
ASCII, where Rust and Lean agree on what whitespace is). -/
def trimChars (l : List Char) : List Char :=
  List.rdropWhile Char.isWhitespace (List.dropWhile Char.isWhitespace l)

/-- Model of the per-entry closure at main.rs lines 177-186: split the entry
on the equals sign, trim every part, and demand exactly two parts; `none`
models the panic with message Invalid environment variable passed. -/
def parseEnvEntry (entry : List Char) : Option (String × String) :=
  match splitOnChar '=' entry with
  | [k, v] => some (String.mk (trimChars k), String.mk (trimChars v))
  | _ => none

/-- Iterated entry parsing, modelling the collect over the map at main.rs
lines 175-187: the panic inside the closure aborts the whole parse. -/
def parseEnvEntries : List (List Char) → Option (List (String × String))
  | [] => some []
  | e :: es =>
    match parseEnvEntry e, parseEnvEntries es with
    | some kv, some rest => some (kv :: rest)
    | _, _ => none

/-- Model of the env_vars construction at main.rs lines 173-188 for a present
--env option value. -/
def parseEnvSpec (s : String) : Option (List (String × String)) :=
  parseEnvEntries (splitOnChar ';' s.data)

lemma splitOnChar_ne_nil (sep : Char) (l : List Char) : splitOnChar sep l ≠ [] := by
  cases l with
  | nil => simp [splitOnChar]
  | cons c cs =>
    simp only [splitOnChar]
    split
    · simp
    · split <;> simp

lemma splitOnChar_length (sep : Char) (l : List Char) :
    (splitOnChar sep l).length = l.count sep + 1 := by
  induction l with
  | nil => simp [splitOnChar]
  | cons c cs ih =>
    by_cases hc : c = sep
    · simp [splitOnChar, hc, List.count_cons, ih]
    · simp only [splitOnChar, if_neg hc]
      rcases hs : splitOnChar sep cs with _ | ⟨h, t⟩
      · exact absurd hs (splitOnChar_ne_nil sep cs)
      · have := ih
        rw [hs] at this
        simp only [List.length_cons] at this ⊢
        simp [List.count_cons, hc, ← this]

lemma parseEnvEntry_eq_none (entry : List Char)
    (h : (splitOnChar '=' entry).length ≠ 2) : parseEnvEntry entry = none := by
  unfold parseEnvEntry
  rcases hs : splitOnChar '=' entry with _ | ⟨k, _ | ⟨v, _ | ⟨w, rest⟩⟩⟩ <;> simp_all

lemma parseEnvEntries_eq_none (es : List (List Char)) (e : List Char)
    (he : e ∈ es) (h : parseEnvEntry e = none) : parseEnvEntries es = none := by
  induction es with
  | nil => cases he
  | cons a as ih =>
    rcases List.mem_cons.mp he with rfl | hmem
    · unfold parseEnvEntries
      rw [h]
    · unfold parseEnvEntries
      rw [ih hmem]
      rcases parseEnvEntry a with _ | kv <;> rfl

lemma trimChars_idem (l : List Char) : trimChars (trimChars l) = trimChars l := by
  unfold trimChars
  have h1 : List.dropWhile Char.isWhitespace
      (List.rdropWhile Char.isWhitespace (List.dropWhile Char.isWhitespace l)) =
      List.rdropWhile Char.isWhitespace (List.dropWhile Char.isWhitespace l) := by
    rw [List.dropWhile_eq_self_iff]
    intro hl
    have hpre := List.rdropWhile_prefix Char.isWhitespace
      (List.dropWhile Char.isWhitespace l)
    have hlen : 0 < (List.dropWhile Char.isWhitespace l).length :=
      lt_of_lt_of_le hl hpre.length_le
    have heq := List.IsPrefix.get_eq hpre hl
    rw [heq]
    exact List.dropWhile_get_zero_not Char.isWhitespace l hlen
  rw [h1, List.rdropWhile_idempotent]

lemma parseEnvEntry_trimmed (e : List Char) (kv : String × String)
    (h : parseEnvEntry e = some kv) :
    trimChars kv.1.data = kv.1.data ∧ trimChars kv.2.data = kv.2.data := by
  unfold parseEnvEntry at h
  rcases hs : splitOnChar '=' e with _ | ⟨k, _ | ⟨v, _ | ⟨w, rest⟩⟩⟩ <;> rw [hs] at h
  · cases h
  · cases h
  · obtain rfl : (String.mk (trimChars k), String.mk (trimChars v)) = kv := by
      simpa using h
    exact ⟨trimChars_idem k, trimChars_idem v⟩
  · cases h

lemma parseEnvEntries_trimmed (es : List (List Char)) (l : List (String × String))
    (h : parseEnvEntries es = some l) (kv : String × String) (hkv : kv ∈ l) :
    trimChars kv.1.data = kv.1.data ∧ trimChars kv.2.data = kv.2.data := by
  induction es generalizing l with
  | nil =>
    unfold parseEnvEntries at h
    cases h
    cases hkv
  | cons a as ih =>
    unfold parseEnvEntries at h
    rcases ha : parseEnvEntry a with _ | kv0 <;> rw [ha] at h
    · cases h
    · rcases hrest : parseEnvEntries as with _ | rest <;> rw [hrest] at h
      · cases h
      · cases h
        rcases List.mem_cons.mp hkv with rfl | hmem
        · exact parseEnvEntry_trimmed a kv ha
        · exact ih rest hrest hmem

/-- Externally visible actions of a run of the program, in order of
occurrence: binding the listener, accepting the one connection, reading the
target's header in `get_template`, the fcntl that clears close-on-exec on the
connected descriptor, the `which` lookup of the debugger, the final image
replacement (with its argument list, the three standard descriptors and the
environment pairs passed through Command::envs), and a panic. -/
inductive Event
  | bind (addr : String)
  | accept
  | readHeader (path : String)
  | fcntlClearCloexec (fd : Nat)
  | whichGdb
  | exec (program : String) (args : List String)
      (stdinFd stdoutFd stderrFd : Option Nat) (envPairs : List (String × String))
  | fatal (msg : String)
deriving DecidableEq, Repr

/-- How a run ends: the bind error propagated by the question-mark operator
at main.rs line 79 (and turned into a panic by the unwrap at line 190), a
panic, replacement of the process image by a successful exec, or the normal
return of Ok after a failed exec (main.rs lines 124-126). -/
inductive Outcome
  | bindError
  | panicked (msg : String)
  | replaced
  | returnedOk
deriving DecidableEq, Repr

/-- Environment of a run: the bytes of the file at each path, the descriptor
number the accepted connection receives, the result of resolving gdb on the
search path, and whether the bind and the final exec succeed. -/
structure World where
  fileBytes : String → List Nat
  clientFd : Nat
  gdbPath : Option String
  bindOk : Bool
  execOk : Bool

/-- State accumulated by std::process::Command builder calls. -/
structure Cmd where
  program : String
  args : List String
  stdinFd : Option Nat
  stdoutFd : Option Nat
  stderrFd : Option Nat
  envPairs : List (String × String)
deriving DecidableEq, Repr

/-- Command::new: a program with no arguments, inherited stdio, no explicit
environment pairs. -/
def Cmd.new (program : String) : Cmd :=
  ⟨program, [], none, none, none, []⟩

/-- Command::arg appends one argument. -/
def Cmd.arg (c : Cmd) (a : String) : Cmd :=
  ⟨c.program, c.args ++ [a], c.stdinFd, c.stdoutFd, c.stderrFd, c.envPairs⟩

/-- Text of the environment directive built at main.rs line 95. -/
def setEnvDirective (kv : String × String) : String :=
  "set env " ++ kv.1 ++ "=" ++ kv.2

/-- Model of str::replace of the newline character by the empty string
(main.rs line 104): removal of every newline character. -/
def stripNewlines (s : String) : String :=
  String.mk (s.data.filter (fun c => c ≠ '\n'))

/-- Text of the compile directive built at main.rs lines 101-105. -/
def compileDirective (fd : Nat) (template : String) : String :=
  "compile code -raw -- " ++ ("int fd = " ++ Nat.repr fd ++ ";" ++ stripNewlines template)

/-- Debugger invocation built on the debug path (main.rs lines 91-111): the
environment directives in a loop, then the start directive, the compile
directive, the target program, and the optional trailing argument after a
separator. -/
def gdbCommand (gdbPath : String) (env_vars : List (String × String)) (fd : Nat)
    (template program : String) (gdb_args : Option String) : Cmd :=
  let cmd := env_vars.foldl (fun c kv => (c.arg "-ex").arg (setEnvDirective kv)) (Cmd.new gdbPath)
  let cmd := ((((cmd.arg "-ex").arg "start").arg "-ex").arg
    (compileDirective fd template)).arg program
  match gdb_args with
  | some a => (cmd.arg "--").arg a
  | none => cmd

/-- Child process configured on the non-debug path (main.rs lines 114-122):
the target program with no arguments, all three standard descriptors set to
the connected descriptor, and the environment pairs passed to Command::envs. -/
def plainCommand (program : String) (fd : Nat) (env_vars : List (String × String)) : Cmd :=
  ⟨program, [], some fd, some fd, some fd, env_vars⟩

/-- Exec event of a built command. -/
def execEvent (c : Cmd) : Event :=
  Event.exec c.program c.args c.stdinFd c.stdoutFd c.stderrFd c.envPairs

/-- Model of `run` (main.rs lines 72-127) as the trace of events it performs
and how it ends.  The accept at line 80 is modelled as succeeding once a
client connects, which is the blocking behaviour the spec describes; the
file of the target is assumed readable (its bytes are given by the world). -/
def run (w : World) (program port : String) (env_vars : List (String × String))
    (gdb : Bool) (gdb_args : Option String) : List Event × Outcome :=
  if w.bindOk then
    let pre := [Event.bind ("127.0.0.1:" ++ port), Event.accept]
    if gdb then
      match get_template (w.fileBytes program) with
      | none =>
        (pre ++ [Event.readHeader program, Event.fatal "Unknown executable file type"],
         Outcome.panicked "Unknown executable file type")
      | some tmpl =>
        match w.gdbPath with
        | none =>
          (pre ++ [Event.readHeader program, Event.fcntlClearCloexec w.clientFd,
            Event.whichGdb, Event.fatal "gdb is not installed"],
           Outcome.panicked "gdb is not installed")
        | some gp =>
          (pre ++ [Event.readHeader program, Event.fcntlClearCloexec w.clientFd,
            Event.whichGdb,
            execEvent (gdbCommand gp env_vars w.clientFd tmpl program gdb_args)],
           if w.execOk then Outcome.replaced else Outcome.returnedOk)
    else
      (pre ++ [execEvent (plainCommand program w.clientFd env_vars)],
       if w.execOk then Outcome.replaced else Outcome.returnedOk)
  else
    ([Event.bind ("127.0.0.1:" ++ port)], Outcome.bindError)

/-- Model of `main` (main.rs lines 129-191): the port defaults to 1337, the
env option is parsed before `run` is called, and a parse failure panics
without any further event. -/
def mainModel (w : World) (portArg envArg : Option String) (gdbFlag : Bool)
    (program : String) (gdbArgs : Option String) : List Event × Outcome :=
  let port := portArg.getD "1337"
  match envArg with
  | none => run w program port [] gdbFlag gdbArgs
  | some e =>
    match parseEnvSpec e with
    | none =>
      ([Event.fatal "Invalid environment variable passed"],
       Outcome.panicked "Invalid environment variable passed")
    | some env_vars => run w program port env_vars gdbFlag gdbArgs

/-- Semantics of Command::envs (main.rs line 120) followed by the exec: each
pair is inserted into the inherited environment map in list order, replacing
the inherited value of its key. -/
def applyEnvPairs (parent : String → Option String) (pairs : List (String × String)) :
    String → Option String :=
  pairs.foldl (fun m kv => fun q => if q = kv.1 then some kv.2 else m q) parent

lemma applyEnvPairs_not_mem (parent : String → Option String)
    (pairs : List (String × String)) (k : String) (h : k ∉ pairs.map Prod.fst) :
    applyEnvPairs parent pairs k = parent k := by
  induction pairs generalizing parent with
  | nil => rfl
  | cons kv rest ih =>
    simp only [List.map_cons, List.mem_cons] at h
    push_neg at h
    simp only [applyEnvPairs, List.foldl_cons] at *
    rw [ih _ h.2]
    simp [h.1]

lemma applyEnvPairs_mem (parent : String → Option String)
    (pairs : List (String × String)) (hnd : (pairs.map Prod.fst).Nodup)
    (kv : String × String) (hkv : kv ∈ pairs) :
    applyEnvPairs parent pairs kv.1 = some kv.2 := by
  induction pairs generalizing parent with
  | nil => cases hkv
  | cons p rest ih =>
    simp only [List.map_cons, List.nodup_cons] at hnd
    rcases List.mem_cons.mp hkv with rfl | hmem
    · have hnotin : kv.1 ∉ rest.map Prod.fst := hnd.1
      simp only [applyEnvPairs, List.foldl_cons]
      rw [show (rest.foldl (fun m kv => fun q => if q = kv.1 then some kv.2 else m q)
          (fun q => if q = kv.1 then some kv.2 else parent q)) =
          applyEnvPairs (fun q => if q = kv.1 then some kv.2 else parent q) rest from rfl]
      rw [applyEnvPairs_not_mem _ _ _ hnotin]
      simp
    · exact ih _ hnd.2 hmem

/-- Claim C10: environment-spec parsing trims surrounding whitespace from
every key and value, so the string with spaces around A and 1 parses to the
pair (A, 1); an empty semicolon-separated entry, as produced by the empty
spec string or by a leading, trailing, or doubled semicolon, is a fatal
parse error. -/
theorem C10_env_trimming_and_empty_entries :
    parseEnvSpec " A = 1 " = some [("A", "1")]
    ∧ parseEnvSpec "" = none
    ∧ parseEnvSpec ";A=1" = none
    ∧ parseEnvSpec "A=1;" = none
    ∧ parseEnvSpec "A=1;;B=2" = none
    ∧ ∀ (s : String) (l : List (String × String)), parseEnvSpec s = some l →
        ∀ kv ∈ l, trimChars kv.1.data = kv.1.data ∧ trimChars kv.2.data = kv.2.data := by
  refine ⟨by decide, by decide, by decide, by decide, by decide, ?_⟩
  intro s l h kv hkv
  exact parseEnvEntries_trimmed _ l h kv hkv

/-- Witness for claim C10 at the concrete spec string with spaces: the
produced key and value are trim-stable. -/
theorem C10_witness :
    trimChars (String.data "A") = String.data "A"
    ∧ trimChars (String.data "1") = String.data "1" :=
  C10_env_trimming_and_empty_entries.2.2.2.2.2 " A = 1 " [("A", "1")]
    C10_env_trimming_and_empty_entries.1 ("A", "1") (by simp)

/-- Claim C1: a file whose padded 5-byte prefix is the ELF magic followed by
class byte 1 is classified `ThirtyTwoBit`, class byte 2 is classified
`SixtyFourBit`, any other prefix makes detection fail (no class returned),
and the returned template is the routine of the detected class. -/
theorem C1_architecture_detection (bytes : List Nat) :
    (detect bytes = some ExecutableClass.ThirtyTwoBit ↔
        firstFiveBytes bytes = [0x7f, 0x45, 0x4c, 0x46, 1])
    ∧ (detect bytes = some ExecutableClass.SixtyFourBit ↔
        firstFiveBytes bytes = [0x7f, 0x45, 0x4c, 0x46, 2])
    ∧ (detect bytes = none ↔
        (firstFiveBytes bytes ≠ [0x7f, 0x45, 0x4c, 0x46, 1] ∧
         firstFiveBytes bytes ≠ [0x7f, 0x45, 0x4c, 0x46, 2]))
    ∧ get_template bytes = (detect bytes).map templateFor := by
  obtain ⟨a, b, c, d, e, h5⟩ := exists_five _ (firstFiveBytes_length bytes)
  have ht : List.take 4 [a, b, c, d, e] = [a, b, c, d] := rfl
  have hg : ([a, b, c, d, e] : List Nat).getD 4 0 = e := rfl
  simp only [detect, get_template, h5, ht, hg]
  by_cases hm : ([a, b, c, d] : List Nat) = [127, 69, 76, 70]
  · rw [if_pos hm, if_pos hm]
    obtain ⟨ha, hb, hc, hd⟩ : a = 127 ∧ b = 69 ∧ c = 76 ∧ d = 70 := by simpa using hm
    subst ha; subst hb; subst hc; subst hd
    by_cases he1 : e = 1
    · subst he1; simp [templateFor]
    · by_cases he2 : e = 2
      · subst he2; simp [templateFor]
      · simp [he1, he2]
  · rw [if_neg hm, if_neg hm]
    have h1 : ([a, b, c, d, e] : List Nat) ≠ [127, 69, 76, 70, 1] := by
      intro hcon
      apply hm
      obtain ⟨ha, hb, hc, hd, _⟩ : a = 127 ∧ b = 69 ∧ c = 76 ∧ d = 70 ∧ e = 1 := by
        simpa using hcon
      simp [ha, hb, hc, hd]
    have h2 : ([a, b, c, d, e] : List Nat) ≠ [127, 69, 76, 70, 2] := by
      intro hcon
      apply hm
      obtain ⟨ha, hb, hc, hd, _⟩ : a = 127 ∧ b = 69 ∧ c = 76 ∧ d = 70 ∧ e = 2 := by
        simpa using hcon
      simp [ha, hb, hc, hd]
    simp [h1, h2]

/-- Recognizer for bind events. -/
def isBindEv : Event → Bool
  | Event.bind _ => true
  | _ => false

/-- Recognizer for the accept event. -/
def isAcceptEv : Event → Bool
  | Event.accept => true
  | _ => false

/-- Number of accepted connections in a trace. -/
def countAccept (tr : List Event) : Nat :=
  (tr.filter isAcceptEv).length

/-- Concrete world for witnesses: a 64-bit ELF header at every path,
descriptor 5, a resolvable debugger, successful bind and exec. -/
def wOk : World :=
  ⟨fun _ => [0x7f, 0x45, 0x4c, 0x46, 2], 5, some "/usr/bin/gdb", true, true⟩

/-- Concrete world in which the debugger is not resolvable. -/
def wNoGdb : World :=
  ⟨fun _ => [0x7f, 0x45, 0x4c, 0x46, 2], 7, none, true, true⟩

/-- Concrete world in which the bind fails. -/
def wNoBind : World :=
  ⟨fun _ => [0x7f, 0x45, 0x4c, 0x46, 2], 5, some "/usr/bin/gdb", false, true⟩

lemma countAccept_run (w : World) (program port : String)
    (env_vars : List (String × String)) (gdb : Bool) (ga : Option String) :
    countAccept (run w program port env_vars gdb ga).1 = if w.bindOk then 1 else 0 := by
  by_cases hb : w.bindOk
  · simp only [run, hb, if_true]
    cases gdb
    · simp [countAccept, isAcceptEv, execEvent]
    · cases hgt : get_template (w.fileBytes program) with
      | none => simp [countAccept, isAcceptEv]
      | some t => cases w.gdbPath <;> simp [countAccept, isAcceptEv, execEvent]
  · simp [run, hb, countAccept, isAcceptEv]

/-- Claim C5: on the non-debug path the child is configured with stdin,
stdout and stderr all equal to the connected descriptor, the process image is
replaced by the target program with no arguments beyond the program path (on
success the exec is the last event and the run ends replaced, never
returning), and each environment pair of the LaunchSpec is set in the child
environment, replacing any inherited value of its key. -/
theorem C5_plain_path (w : World) (program port : String)
    (env_vars : List (String × String)) (hbind : w.bindOk = true) (hexec : w.execOk = true) :
    run w program port env_vars false none =
      ([Event.bind ("127.0.0.1:" ++ port), Event.accept,
        Event.exec program [] (some w.clientFd) (some w.clientFd) (some w.clientFd) env_vars],
       Outcome.replaced)
    ∧ (∀ (parent : String → Option String) (kv : String × String), kv ∈ env_vars →
        (env_vars.map Prod.fst).Nodup → applyEnvPairs parent env_vars kv.1 = some kv.2)
    ∧ (∀ (parent : String → Option String) (k : String), k ∉ env_vars.map Prod.fst →
        applyEnvPairs parent env_vars k = parent k) := by
  refine ⟨?_, fun parent kv hkv hnd => applyEnvPairs_mem parent env_vars hnd kv hkv,
    fun parent k hk => applyEnvPairs_not_mem parent env_vars k hk⟩
  simp [run, hbind, hexec, plainCommand, execEvent]

/-- Witness for claim C5 at a concrete world and launch spec. -/
theorem C5_witness :
    run wOk "/bin/cat" "1337" [("A", "1")] false none =
      ([Event.bind "127.0.0.1:1337", Event.accept,
        Event.exec "/bin/cat" [] (some 5) (some 5) (some 5) [("A", "1")]],
       Outcome.replaced) := by
  exact (C5_plain_path wOk "/bin/cat" "1337" [("A", "1")] rfl rfl).1

/-- Claim C8: when the bind fails, the run ends with the bind error without
ever reaching the accept stage; the trace holds exactly one bind event, at
the requested loopback port, so there is no retry and no fallback port. -/
theorem C8_bind_failure (w : World) (program port : String)
    (env_vars : List (String × String)) (gdb : Bool) (gdb_args : Option String)
    (h : w.bindOk = false) :
    run w program port env_vars gdb gdb_args =
      ([Event.bind ("127.0.0.1:" ++ port)], Outcome.bindError)
    ∧ Event.accept ∉ (run w program port env_vars gdb gdb_args).1
    ∧ (run w program port env_vars gdb gdb_args).1.filter isBindEv =
        [Event.bind ("127.0.0.1:" ++ port)] := by
  have h1 : run w program port env_vars gdb gdb_args =
      ([Event.bind ("127.0.0.1:" ++ port)], Outcome.bindError) := by
    simp [run, h]
  refine ⟨h1, ?_, ?_⟩
  · rw [h1]
    simp
  · rw [h1]
    simp [isBindEv]

/-- Witness for claim C8 at a concrete world whose bind fails. -/
theorem C8_witness :
    run wNoBind "/bin/cat" "4444" [] false none =
      ([Event.bind "127.0.0.1:4444"], Outcome.bindError) := by
  exact (C8_bind_failure wNoBind "/bin/cat" "4444" [] false none rfl).1

/-- Claim C9: at most one connection is ever accepted in a run: the trace of
`run` holds exactly one accept event when the bind succeeds and none
otherwise, and every trace of `main`, whichever way it ends, holds at most
one accept event. -/
theorem C9_single_accept (w : World) (portArg envArg : Option String) (gdbFlag : Bool)
    (program : String) (gdbArgs : Option String) :
    (∀ (port : String) (env_vars : List (String × String)) (gdb : Bool)
        (ga : Option String),
      countAccept (run w program port env_vars gdb ga).1 = if w.bindOk then 1 else 0)
    ∧ countAccept (mainModel w portArg envArg gdbFlag program gdbArgs).1 ≤ 1 := by
  refine ⟨fun port env_vars gdb ga => countAccept_run w program port env_vars gdb ga, ?_⟩
  simp only [mainModel]
  rcases envArg with _ | e
  · rw [countAccept_run]
    split <;> simp
  · rcases hp : parseEnvSpec e with _ | env_vars
    · simp only [hp]
      simp [countAccept, isAcceptEv]
    · simp only [hp]
      rw [countAccept_run]
      split <;> simp

/-- Claim C6: the spec string A=1;B=2 parses to exactly the pairs (A,1) and
(B,2) in order; the spec A=1;B, and in general any spec with a
semicolon-separated entry not containing exactly one equals sign, is a fatal
parse error, and this failure happens before any socket is bound: the main
trace is the panic alone, with no bind event. -/
theorem C6_env_parse :
    parseEnvSpec "A=1;B=2" = some [("A", "1"), ("B", "2")]
    ∧ parseEnvSpec "A=1;B" = none
    ∧ (∀ (s : String) (entry : List Char), entry ∈ splitOnChar ';' s.data →
        entry.count '=' ≠ 1 → parseEnvSpec s = none)
    ∧ (∀ (w : World) (portArg : Option String) (gdbFlag : Bool) (program : String)
        (gdbArgs : Option String) (s : String), parseEnvSpec s = none →
          mainModel w portArg (some s) gdbFlag program gdbArgs =
            ([Event.fatal "Invalid environment variable passed"],
             Outcome.panicked "Invalid environment variable passed")
          ∧ ∀ a, Event.bind a ∉ (mainModel w portArg (some s) gdbFlag program gdbArgs).1) := by
  refine ⟨by decide, by decide, ?_, ?_⟩
  · intro s entry hmem hcount
    apply parseEnvEntries_eq_none _ entry hmem
    apply parseEnvEntry_eq_none
    rw [splitOnChar_length]
    omega
  · intro w portArg gdbFlag program gdbArgs s h
    constructor
    · simp [mainModel, h]
    · intro a
      simp [mainModel, h]

/-- Witness for claim C6: the malformed spec A=1;B panics before any bind at
a concrete world. -/
theorem C6_witness :
    mainModel wOk none (some "A=1;B") false "/bin/cat" none =
      ([Event.fatal "Invalid environment variable passed"],
       Outcome.panicked "Invalid environment variable passed") := by
  exact (C6_env_parse.2.2.2 wOk none false "/bin/cat" none "A=1;B" C6_env_parse.2.1).1

/-- Counterexample to claim C4: in a world where the debugger is not
resolvable, the debug-path run does fail fatally with the
gdb-is-not-installed panic, but at that moment the close-on-exec attribute
of the connected descriptor has already been cleared: the fcntl event is in
the trace of the failed run. -/
theorem C4_counterexample :
    (run wNoGdb "prog" "1337" [] true none).2 = Outcome.panicked "gdb is not installed"
    ∧ Event.fcntlClearCloexec 7 ∈ (run wNoGdb "prog" "1337" [] true none).1 := by
  decide

/-- Claim C4 as amended: when the debugger cannot be resolved on the debug
path, the run fails fatally with the gdb-is-not-installed error and nothing
further happens, but only after the close-on-exec attribute of the connected
descriptor has been cleared: the trace ends with the fcntl on the connected
descriptor, the failed debugger lookup, and the panic. -/
theorem C4_amended (w : World) (program port : String)
    (env_vars : List (String × String)) (gdb_args : Option String)
    (hbind : w.bindOk = true) (t : String)
    (htmpl : get_template (w.fileBytes program) = some t) (hgdb : w.gdbPath = none) :
    run w program port env_vars true gdb_args =
      ([Event.bind ("127.0.0.1:" ++ port), Event.accept, Event.readHeader program,
        Event.fcntlClearCloexec w.clientFd, Event.whichGdb,
        Event.fatal "gdb is not installed"],
       Outcome.panicked "gdb is not installed") := by
  simp [run, hbind, htmpl, hgdb]

/-- Witness for the amended claim C4 at a concrete world. -/
theorem C4_amended_witness :
    run wNoGdb "prog" "1337" [] true none =
      ([Event.bind "127.0.0.1:1337", Event.accept, Event.readHeader "prog",
        Event.fcntlClearCloexec 7, Event.whichGdb,
        Event.fatal "gdb is not installed"],
       Outcome.panicked "gdb is not installed") := by
  exact C4_amended wNoGdb "prog" "1337" [] none rfl AMD64_TEMPLATE rfl rfl

/-- Boolean contiguous-substring test on character lists. -/
def hasSub (p : List Char) : List Char → Bool
  | [] => p.isEmpty
  | c :: cs => p.isPrefixOf (c :: cs) || hasSub p cs

lemma hasSub_append_right (p l₁ l₂ : List Char) (h : hasSub p l₂ = true) :
    hasSub p (l₁ ++ l₂) = true := by
  induction l₁ with
  | nil => simpa using h
  | cons c cs ih =>
    simp only [List.cons_append, hasSub, Bool.or_eq_true]
    exact Or.inr ih

lemma hasSub_head_skip (d : Char) (p2 l₁ l₂ : List Char) (h : d ∉ l₁) :
    hasSub (d :: p2) (l₁ ++ l₂) = hasSub (d :: p2) l₂ := by
  induction l₁ with
  | nil => rfl
  | cons c cs ih =>
    simp only [List.mem_cons, not_or] at h
    have hne : (d == c) = false := by
      simp only [beq_eq_false_iff_ne]
      exact h.1
    simp only [List.cons_append, hasSub, List.isPrefixOf_cons₂, hne, Bool.false_and,
      Bool.false_or]
    exact ih h.2

lemma hasSub_false_append (d : Char) (p2 l₁ l₂ : List Char) (h : d ∉ l₁)
    (h2 : hasSub (d :: p2) l₂ = false) : hasSub (d :: p2) (l₁ ++ l₂) = false := by
  rw [hasSub_head_skip d p2 l₁ l₂ h]
  exact h2

lemma digitChar_ne_dollar (n : Nat) : Nat.digitChar n ≠ '$' := by
  by_cases h : n < 16
  · interval_cases n <;> decide
  · have h0 : Nat.digitChar n = '*' := by
      unfold Nat.digitChar
      repeat rw [if_neg (show _ by omega)]
    rw [h0]
    decide

lemma toDigitsCore_no_dollar (fuel : Nat) : ∀ (n : Nat) (acc : List Char),
    '$' ∉ acc → '$' ∉ Nat.toDigitsCore 10 fuel n acc := by
  induction fuel with
  | zero =>
    intro n acc h
    simpa [Nat.toDigitsCore] using h
  | succ f ih =>
    intro n acc h
    simp only [Nat.toDigitsCore]
    split
    · intro hmem
      rcases List.mem_cons.mp hmem with heq | hin
      · exact digitChar_ne_dollar _ heq.symm
      · exact h hin
    · apply ih
      intro hmem
      rcases List.mem_cons.mp hmem with heq | hin
      · exact digitChar_ne_dollar _ heq.symm
      · exact h hin

lemma natRepr_no_dollar (n : Nat) : '$' ∉ (Nat.repr n).data := by
  show '$' ∉ (Nat.toDigits 10 n).asString.data
  have h : (Nat.toDigits 10 n).asString.data = Nat.toDigits 10 n := rfl
  rw [h]
  exact toDigitsCore_no_dollar (n + 1) n [] (by simp)

lemma Cmd.arg_args (c : Cmd) (a : String) : (c.arg a).args = c.args ++ [a] := rfl

lemma gdbCommand_args_foldl (env_vars : List (String × String)) (c : Cmd) :
    (env_vars.foldl (fun c kv => (c.arg "-ex").arg (setEnvDirective kv)) c).args =
      c.args ++ (env_vars.map (fun kv => ["-ex", setEnvDirective kv])).flatten := by
  induction env_vars generalizing c with
  | nil => simp
  | cons kv rest ih =>
    simp only [List.foldl_cons, List.map_cons, List.flatten_cons]
    rw [ih]
    simp [Cmd.arg]

/-- Description of the debugger invocation taken from the spec (section 4.5
step 2 and the unit-level property in section 8): environment directives in
list order, the start-and-halt-at-entry directive, one compile-and-execute
directive made of the compile prefix, the integer declaration binding the
connected descriptor's number, and the newline-stripped routine text, then
the target program, then the separator plus the extra arguments exactly when
they were supplied.  This definition follows the spec's words and is compared
against the source-side `gdbCommand`. -/
def specGdbArgv (env_vars : List (String × String)) (fd : Nat)
    (template program : String) (gdb_args : Option String) : List String :=
  (env_vars.map (fun kv => ["-ex", "set env " ++ kv.1 ++ "=" ++ kv.2])).flatten
    ++ ["-ex", "start",
        "-ex", "compile code -raw -- " ++ "int fd = " ++ Nat.repr fd ++ ";" ++ stripNewlines template,
        program]
    ++ (match gdb_args with
        | some a => ["--", a]
        | none => [])

lemma compileDirective_eq (fd : Nat) (t : String) :
    compileDirective fd t =
      "compile code -raw -- " ++ "int fd = " ++ Nat.repr fd ++ ";" ++ stripNewlines t := by
  apply String.ext
  simp [compileDirective, List.append_assoc]

lemma compileDirective_data (fd : Nat) (t : String) :
    (compileDirective fd t).data =
      String.data "compile code -raw -- " ++ (String.data "int fd = " ++
        ((Nat.repr fd).data ++ (String.data ";" ++ (stripNewlines t).data))) := by
  simp [compileDirective, List.append_assoc]

/-- Claim C3: the debug-path debugger invocation's arguments are exactly, in
order: one -ex environment directive per LaunchSpec pair in list order, the
-ex start directive, a single -ex compile directive whose text is the
compile prefix followed by the declaration binding the connected
descriptor's number immediately followed by the architecture-matched routine
text with all newlines removed, the target program path, and a separator
followed by the extra debugger arguments exactly when they were supplied;
and for a 64-bit target the compile directive contains the 64-bit routine's
syscall-number text and never the 32-bit one, whatever the descriptor
number is. -/
theorem C3_gdb_invocation (gdbPath : String) (env_vars : List (String × String))
    (fd : Nat) (cls : ExecutableClass) (program : String) (gdb_args : Option String) :
    (gdbCommand gdbPath env_vars fd (templateFor cls) program gdb_args).args =
      specGdbArgv env_vars fd (templateFor cls) program gdb_args
    ∧ hasSub ['$', '3', '3'] (compileDirective fd AMD64_TEMPLATE).data = true
    ∧ hasSub ['$', '6', '3'] (compileDirective fd AMD64_TEMPLATE).data = false := by
  refine ⟨?_, ?_, ?_⟩
  · rcases gdb_args with _ | a <;>
    · simp only [gdbCommand, specGdbArgv, Cmd.arg_args]
      rw [gdbCommand_args_foldl]
      simp [Cmd.new, setEnvDirective, compileDirective_eq, List.append_assoc]
  · rw [compileDirective_data]
    apply hasSub_append_right
    apply hasSub_append_right
    apply hasSub_append_right
    apply hasSub_append_right
    decide
  · rw [compileDirective_data]
    apply hasSub_false_append _ _ _ _ (by decide)
    apply hasSub_false_append _ _ _ _ (by decide)
    apply hasSub_false_append _ _ _ _ (natRepr_no_dollar fd)
    apply hasSub_false_append _ _ _ _ (by decide)
    decide

/-- General-purpose registers named by the two templates, plus r11, which the
64-bit kernel entry clobbers. -/
inductive Reg
  | RAX | RBX | RCX | RDX | RSI | RDI | R11
deriving DecidableEq, Repr

/-- Operand width of a mov mnemonic: movl is 32 bit, movq is 64 bit. -/
inductive Width
  | w32 | w64
deriving DecidableEq, Repr

/-- Source operand of a mov: an immediate, or the asm input operand number
zero (the descriptor variable bound by the constraint). -/
inductive SrcOp
  | imm (n : Nat) | op0
deriving DecidableEq, Repr

/-- Instructions occurring in the two templates. -/
inductive Insn
  | movImm (w : Width) (n : Nat) (dst : Reg)
  | movOp0 (w : Width) (dst : Reg)
  | syscall
deriving DecidableEq, Repr

/-- AT-and-T register names used by the templates, with their width. -/
def regOfName : List Char → Option (Width × Reg)
  | ['r', 'a', 'x'] => some (Width.w64, Reg.RAX)
  | ['e', 'a', 'x'] => some (Width.w32, Reg.RAX)
  | ['r', 'b', 'x'] => some (Width.w64, Reg.RBX)
  | ['e', 'b', 'x'] => some (Width.w32, Reg.RBX)
  | ['r', 'c', 'x'] => some (Width.w64, Reg.RCX)
  | ['e', 'c', 'x'] => some (Width.w32, Reg.RCX)
  | ['r', 'd', 'i'] => some (Width.w64, Reg.RDI)
  | ['e', 'd', 'i'] => some (Width.w32, Reg.RDI)
  | ['r', 's', 'i'] => some (Width.w64, Reg.RSI)
  | ['e', 's', 'i'] => some (Width.w32, Reg.RSI)
  | ['r', '1', '1'] => some (Width.w64, Reg.R11)
  | _ => none

def parseWidthChar : Char → Option Width
  | 'q' => some Width.w64
  | 'l' => some Width.w32
  | _ => none

def parseDigits (l : List Char) : Option Nat :=
  if l ≠ [] ∧ l.all Char.isDigit then
    some (l.foldl (fun a c => a * 10 + (c.toNat - 48)) 0)
  else none

def parseSrcOp : List Char → Option SrcOp
  | '$' :: ds => (parseDigits ds).map SrcOp.imm
  | ['%', '0'] => some SrcOp.op0
  | _ => none

/-- Removal of the trailing backslash-n escape each quoted assembly string of
the templates carries. -/
def stripAsmNl (s : List Char) : List Char :=
  if s.reverse.take 2 = ['n', '\\'] then (s.reverse.drop 2).reverse else s

/-- Parser for one quoted assembly string of the templates: the syscall
mnemonic, or a mov of an immediate or of input operand zero into a register
whose width must agree with the mnemonic width. -/
def parseInsn (s0 : List Char) : Option Insn :=
  let s := stripAsmNl s0
  if s = String.data "syscall" then some Insn.syscall
  else
    match splitOnChar ',' s with
    | [lhs, rhs] =>
      match splitOnChar ' ' lhs with
      | [mn, op] =>
        match mn with
        | ['m', 'o', 'v', wc] =>
          match parseWidthChar wc, parseSrcOp op with
          | some w, some so =>
            match rhs with
            | ' ' :: '%' :: '%' :: rn =>
              match regOfName rn with
              | some (wr, r) =>
                if wr = w then
                  some (match so with
                    | SrcOp.imm n => Insn.movImm w n r
                    | SrcOp.op0 => Insn.movOp0 w r)
                else none
              | none => none
            | _ => none
          | _, _ => none
        | _ => none
      | _ => none
    | _ => none

/-- Pieces found at the odd positions of a list (the insides of the quote
pairs once the surrounding text is split at every quote character). -/
def oddIdx : List (List Char) → List (List Char)
  | [] => []
  | [_] => []
  | _ :: b :: rest => b :: oddIdx rest

/-- Quoted segments of a template: the assembly strings, then the input
constraint letter, then the clobber names. -/
def quotedSegs (l : List Char) : List (List Char) :=
  oddIdx (splitOnChar '"' l)

/-- Parsed shape of a template: instruction list, input constraint, clobber
names as written. -/
structure AsmTemplate where
  insns : List Insn
  inputConstraint : List Char
  clobbers : List (List Char)
deriving DecidableEq, Repr

def mapOpt (f : α → Option β) : List α → Option (List β)
  | [] => some []
  | a :: as =>
    match f a, mapOpt f as with
    | some b, some bs => some (b :: bs)
    | _, _ => none

/-- Template parser: the quoted segments before the constraint letter b are
the assembly strings, the ones after it are the clobber names. -/
def parseTemplate (t : String) : Option AsmTemplate :=
  let qs := quotedSegs t.data
  let asmS := qs.takeWhile (fun q => q ≠ ['b'])
  match qs.dropWhile (fun q => q ≠ ['b']) with
  | [] => none
  | b :: clobS =>
    match mapOpt parseInsn asmS with
    | none => none
    | some insns => some ⟨insns, b, clobS⟩

/-- Register a clobber name such as percent-rax denotes. -/
def clobberReg : List Char → Option Reg
  | '%' :: rn => (regOfName rn).map Prod.snd
  | _ => none

/-- Register GCC allocates for input operand zero under the constraint letter
of the template (constraint b is the bx register). -/
def operand0Reg : List Char → Option Reg
  | ['b'] => some Reg.RBX
  | _ => none

/-- Environment model (Linux ABI): register carrying the system-call number,
for both the 64-bit syscall convention and the 32-bit convention. -/
def sysNumReg : ExecutableClass → Reg := fun _ => Reg.RAX

/-- Environment model (Linux ABI): register carrying the first system-call
argument (rdi on x86-64; ebx in the 32-bit convention). -/
def sysArg1Reg : ExecutableClass → Reg
  | ExecutableClass.SixtyFourBit => Reg.RDI
  | ExecutableClass.ThirtyTwoBit => Reg.RBX

/-- Environment model (Linux ABI): register carrying the second system-call
argument (rsi on x86-64; ecx in the 32-bit convention). -/
def sysArg2Reg : ExecutableClass → Reg
  | ExecutableClass.SixtyFourBit => Reg.RSI
  | ExecutableClass.ThirtyTwoBit => Reg.RCX

/-- Environment model (Linux ABI): number of the duplicate-file-descriptor
system call dup2, 33 on x86-64 and 63 on i386. -/
def dup2Number : ExecutableClass → Nat
  | ExecutableClass.SixtyFourBit => 33
  | ExecutableClass.ThirtyTwoBit => 63

/-- Environment model (x86-64 hardware): the syscall instruction itself
overwrites rcx and r11; the 32-bit kernel entry preserves everything but the
result register. -/
def syscallClobbers : ExecutableClass → List Reg
  | ExecutableClass.SixtyFourBit => [Reg.RCX, Reg.R11]
  | ExecutableClass.ThirtyTwoBit => []

def setReg (f : Reg → Nat) (r : Reg) (v : Nat) : Reg → Nat :=
  fun q => if q = r then v else f q

/-- Register state after a kernel call: the result lands in rax, and on the
64-bit architecture rcx and r11 take kernel-determined values; the model
leaves those values arbitrary (j1, j2). -/
def afterSyscall (cls : ExecutableClass) (ret j1 j2 : Nat) (regs : Reg → Nat) : Reg → Nat :=
  match cls with
  | ExecutableClass.SixtyFourBit =>
    setReg (setReg (setReg regs Reg.RAX ret) Reg.RCX j1) Reg.R11 j2
  | ExecutableClass.ThirtyTwoBit => setReg regs Reg.RAX ret

/-- Small-step execution of a parsed template: mov writes registers, and the
syscall mnemonic emits the triple (number, first argument, second argument)
read from the registers of the architecture's convention.  The functions
rets, j1 and j2 give the kernel's return and clobber values for the k-th
call, arbitrary since the routine ignores them. -/
def execInsns (cls : ExecutableClass) (c0 : Reg) (rets j1 j2 : Nat → Nat) :
    List Insn → (Reg → Nat) → Nat → List (Nat × Nat × Nat)
  | [], _, _ => []
  | Insn.movImm _ n r :: rest, regs, k =>
    execInsns cls c0 rets j1 j2 rest (setReg regs r n) k
  | Insn.movOp0 _ r :: rest, regs, k =>
    execInsns cls c0 rets j1 j2 rest (setReg regs r (regs c0)) k
  | Insn.syscall :: rest, regs, k =>
    (regs (sysNumReg cls), regs (sysArg1Reg cls), regs (sysArg2Reg cls)) ::
      execInsns cls c0 rets j1 j2 rest (afterSyscall cls (rets k) (j1 k) (j2 k) regs) (k + 1)

/-- System calls performed by the routine of a class when executed with the
descriptor number bound to its input operand: parse the template of the
class, bind the descriptor to the constraint register, run the instructions. -/
def execTemplate (cls : ExecutableClass) (fd : Nat) (rets j1 j2 : Nat → Nat) :
    Option (List (Nat × Nat × Nat)) :=
  match parseTemplate (templateFor cls) with
  | none => none
  | some t =>
    match operand0Reg t.inputConstraint with
    | none => none
    | some c0 =>
      some (execInsns cls c0 rets j1 j2 t.insns (setReg (fun _ => 0) c0 fd) 0)

/-- Registers the declared clobber list of the routine of a class denotes. -/
def declaredClobberRegs (cls : ExecutableClass) : Option (List Reg) :=
  match parseTemplate (templateFor cls) with
  | none => none
  | some t => mapOpt clobberReg t.clobbers

/-- Registers written by the mov instructions of the routine of a class,
without repetition. -/
def movDestRegs (cls : ExecutableClass) : Option (List Reg) :=
  (parseTemplate (templateFor cls)).map (fun t =>
    (t.insns.filterMap (fun i =>
      match i with
      | Insn.movImm _ _ r => some r
      | Insn.movOp0 _ r => some r
      | Insn.syscall => none)).dedup)

/-- Counterexample to claim C2: the 64-bit routine does not declare as
clobbered exactly the registers it uses.  Its declared clobber list names
rcx, which no instruction of the routine writes (only the syscall
instruction itself clobbers it), and it omits r11, which the syscall
instruction also clobbers. -/
theorem C2_counterexample :
    declaredClobberRegs ExecutableClass.SixtyFourBit =
      some [Reg.RAX, Reg.RDI, Reg.RSI, Reg.RCX]
    ∧ movDestRegs ExecutableClass.SixtyFourBit = some [Reg.RAX, Reg.RDI, Reg.RSI]
    ∧ syscallClobbers ExecutableClass.SixtyFourBit = [Reg.RCX, Reg.R11]
    ∧ Reg.RCX ∉ [Reg.RAX, Reg.RDI, Reg.RSI]
    ∧ Reg.R11 ∉ [Reg.RAX, Reg.RDI, Reg.RSI, Reg.RCX] := by decide

/-- Claim C2 as amended: for each class the routine, executed with a live
descriptor bound to its input operand, performs exactly three direct kernel
calls to dup2, with the syscall number and the number and argument registers
of that architecture's convention, duplicating the descriptor onto slot 0,
then slot 1, then slot 2, and ignoring every return value (the trace does
not depend on the kernel's returns or clobber values); the 32-bit routine
declares as clobbered exactly the registers its instructions write, while
the 64-bit routine declares those plus rcx (which only the syscall
instruction clobbers) and omits r11 (which the syscall instruction also
clobbers). -/
theorem C2_amended (cls : ExecutableClass) (fd : Nat) (rets j1 j2 : Nat → Nat) :
    execTemplate cls fd rets j1 j2 =
      some [(dup2Number cls, fd, 0), (dup2Number cls, fd, 1), (dup2Number cls, fd, 2)]
    ∧ declaredClobberRegs ExecutableClass.ThirtyTwoBit =
        movDestRegs ExecutableClass.ThirtyTwoBit
    ∧ (∃ m, movDestRegs ExecutableClass.SixtyFourBit = some m ∧
        declaredClobberRegs ExecutableClass.SixtyFourBit = some (m ++ [Reg.RCX]) ∧
        syscallClobbers ExecutableClass.SixtyFourBit = [Reg.RCX, Reg.R11] ∧
        Reg.R11 ∉ m ++ [Reg.RCX]) := by
  refine ⟨?_, by decide,
    ⟨[Reg.RAX, Reg.RDI, Reg.RSI], by decide, by decide, by decide, by decide⟩⟩
  cases cls
  · exact rfl
  · exact rfl

/-- Replacement of every non-overlapping occurrence of a pattern by a
replacement text, leftmost first, the semantics of str::replace; the fuel
argument makes the recursion structural and is set above the length of the
text. -/
def replaceSubF (p r : List Char) : Nat → List Char → List Char
  | 0, l => l
  | _, [] => []
  | fuel + 1, c :: cs =>
    if p.isPrefixOf (c :: cs) then r ++ replaceSubF p r fuel ((c :: cs).drop p.length)
    else c :: replaceSubF p r fuel cs

def replaceAll (p r : String) (l : List Char) : List Char :=
  replaceSubF p.data r.data (l.length + 1) l

def applySubsts (subs : List (String × String)) (l : List Char) : List Char :=
  subs.foldl (fun acc pr => replaceAll pr.1 pr.2 acc) l

/-- Identifications claim C7 allows between the two templates: the two
encoded syscall numbers become one common token, and each width-paired
mnemonic or register name (movq and movl; rax and eax, rbx and ebx, rcx and
ecx, rdi and edi, rsi and esi) becomes one width-less token.  If the two
texts differed only in syscall numbers and register-width mnemonics, they
would coincide after these identifications. -/
def widthSubsts : List (String × String) :=
  [("movq", "mov"), ("movl", "mov"),
   ("$33", "$NR"), ("$63", "$NR"),
   ("rax", "Ra"), ("eax", "Ra"),
   ("rbx", "Rb"), ("ebx", "Rb"),
   ("rcx", "Rc"), ("ecx", "Rc"),
   ("rdi", "Rd"), ("edi", "Rd"),
   ("rsi", "Rs"), ("esi", "Rs")]

/-- Additional identifications the amended claim C7 needs on the 64-bit
side: that convention's two argument registers become common argument
tokens, and the extra rcx clobber entry is removed. -/
def amd64ConvSubsts : List (String × String) :=
  [("Rd", "A1"), ("Rs", "A2"), (", \"%Rc\"", "")]

/-- Additional identifications on the 32-bit side: that convention's two
argument registers become the same argument tokens. -/
def x86ConvSubsts : List (String × String) :=
  [("Rb", "A1"), ("Rc", "A2")]

/-- Counterexample to claim C7: the two routine texts do not coincide after
identifying the syscall numbers and every width-paired mnemonic and register
name, so they differ in more than those; concretely, the 64-bit routine
moves the descriptor into edi where the 32-bit one uses ebx (different
architectural registers, not a width pair), and the declared clobber lists
name four registers against three. -/
theorem C7_counterexample :
    applySubsts widthSubsts AMD64_TEMPLATE.data ≠ applySubsts widthSubsts X86_TEMPLATE.data
    ∧ hasSub (String.data "%%edi") AMD64_TEMPLATE.data = true
    ∧ hasSub (String.data "%%ebx") X86_TEMPLATE.data = true
    ∧ hasSub (String.data "%%ebx") AMD64_TEMPLATE.data = false
    ∧ declaredClobberRegs ExecutableClass.SixtyFourBit =
        some [Reg.RAX, Reg.RDI, Reg.RSI, Reg.RCX]
    ∧ declaredClobberRegs ExecutableClass.ThirtyTwoBit =
        some [Reg.RAX, Reg.RBX, Reg.RCX] := by decide

/-- Claim C7 as amended: the template generator is a pure function, each
class mapping to one fixed, byte-identical constant; and the two routine
texts differ only in the encoded syscall numbers, the width mnemonics of
instructions and register names, the architecture's syscall argument
registers (rdi and rsi against ebx and ecx), and one additional rcx clobber
entry in the 64-bit variant: after identifying exactly those, the two texts
coincide. -/
theorem C7_template_relation :
    templateFor ExecutableClass.ThirtyTwoBit = X86_TEMPLATE
    ∧ templateFor ExecutableClass.SixtyFourBit = AMD64_TEMPLATE
    ∧ applySubsts (widthSubsts ++ amd64ConvSubsts) AMD64_TEMPLATE.data =
        applySubsts (widthSubsts ++ x86ConvSubsts) X86_TEMPLATE.data := by
  exact ⟨rfl, rfl, by decide⟩
